import Mathlib

/-!
Verification development for the gamify-dashboard quest service
(`src/lib/services/QuestService.ts`, `src/lib/services/QuestConfigService.ts`,
progress document schemas `DailyQuestProgress` / `WeeklyQuestProgress`).

The service is shallowly embedded: the Mongoose documents become plain
structures, the service methods become pure functions over those structures
(the store slot for the resolved period is passed in and returned
explicitly), and JavaScript numbers holding counters, thresholds and rewards
become `Nat` (the schemas and the sanitization in
`QuestConfigService.updateQuest` keep them non-negative).  Calendar instants
are represented by their America/New_York civil date `(year, month, day)`
as produced by the timezone conversion at the top of `getDateKey` /
`getWeekKey`; day arithmetic uses whole days.
-/

namespace Gamify

/-! ## Calendar arithmetic (getWeekKey and its part_002 variant)

Day numbers count days since 1970-01-01, matching the epoch used by the
JavaScript `Date` millisecond clock divided by 86400000.  The civil-date
conversions are the standard Gregorian algorithms; they are valid for all
years ≥ 1970, which covers every date the service can observe. -/

/-- Days since 1970-01-01 of the civil date `(y, m, d)` (valid for y ≥ 1970). -/
def daysFromCivil (y m d : Nat) : Nat :=
  let y' := if m ≤ 2 then y - 1 else y
  let era := y' / 400
  let yoe := y' - era * 400
  let mp := (m + 9) % 12
  let doy := (153 * mp + 2) / 5 + d - 1
  let doe := yoe * 365 + yoe / 4 - yoe / 100 + doy
  era * 146097 + doe - 719468

/-- Civil date `(y, m, d)` of a day number (inverse of `daysFromCivil`). -/
def civilFromDays (z : Nat) : Nat × Nat × Nat :=
  let z' := z + 719468
  let era := z' / 146097
  let doe := z' % 146097
  let yoe := (doe - doe / 1460 + doe / 36524 - doe / 146096) / 365
  let y := yoe + era * 400
  let doy := doe - (365 * yoe + yoe / 4 - yoe / 100)
  let mp := (5 * doy + 2) / 153
  let d := doy - (153 * mp + 2) / 5 + 1
  let m := if mp < 10 then mp + 3 else mp - 9
  (if m ≤ 2 then y + 1 else y, m, d)

/-- JavaScript `Date.getDay` of a day number: 0 = Sunday … 6 = Saturday
(1970-01-01 was a Thursday, value 4). -/
def jsDayOfWeek (z : Nat) : Nat := (z + 4) % 7

/-- JavaScript `n.toString().padStart(2, '0')` for a natural number. -/
def padTwo (n : Nat) : String :=
  if n < 10 then "0" ++ toString n else toString n

/-- JavaScript `n.toString().padStart(2, '0')` for an integer (a negative
number already prints with at least two characters). -/
def padTwoInt (n : Int) : String :=
  if 0 ≤ n ∧ n < 10 then "0" ++ toString n else toString n

/-- `QuestService.getWeekNumber` (QuestService.ts lines 562-568): shift the
date to the Thursday of its Monday-based week, then count weeks from
January 1 of the Thursday's year with `Math.ceil(((d - yearStart) + 1) / 7)`.
This is the standard ISO-8601 week number. -/
def getWeekNumber (y m d : Nat) : Nat :=
  let z := daysFromCivil y m d
  let dow := jsDayOfWeek z
  let dayNum := if dow = 0 then 7 else dow
  let thursday := z + 4 - dayNum
  let ty := (civilFromDays thursday).1
  let yearStart := daysFromCivil ty 1 1
  (thursday - yearStart + 1 + 6) / 7

/-- `QuestService.getWeekKey` (QuestService.ts lines 553-559): the week
number comes from `getWeekNumber`, but the year prefix is
`nyDate.getFullYear()` — the instant's own calendar year, not the year of
the ISO week's Thursday. -/
def getWeekKey (y m d : Nat) : String :=
  toString y ++ "-W" ++ padTwo (getWeekNumber y m d)

/-- The `getWeekKey` of the `part_002` variant of QuestService.ts (lines
553-595): moves the date forward `(4 - dayOfWeek + 7) % 7` days to reach a
Thursday, does the same forward move from January 4 of the Thursday's year
to get a "first Thursday", and returns
`floor((thursday - firstThursday) / 7) + 1` prefixed with the Thursday's
year.  The forward-only offsets overshoot by one week for Friday–Sunday
dates, so the two Thursdays can disagree about which week is week 1. -/
def getWeekKeyVariant (y m d : Nat) : String :=
  let z := daysFromCivil y m d
  let dayOfWeek := jsDayOfWeek z
  let thursdayOffset := (4 + 7 - dayOfWeek) % 7
  let thursday := z + thursdayOffset
  let ty := (civilFromDays thursday).1
  let jan4 := daysFromCivil ty 1 4
  let jan4Offset := (4 + 7 - jsDayOfWeek jan4) % 7
  let firstThursday := jan4 + jan4Offset
  let weekNumber := Int.fdiv ((thursday : Int) - (firstThursday : Int)) 7 + 1
  toString ty ++ "-W" ++ padTwoInt weekNumber

/-- Modelled from the spec: the ISO-8601 weekly key required by §4.1 —
week 1 is the week containing January 4, weeks run Monday–Sunday, and the
year component is the year of the Thursday of the instant's week.  The
repository ships no function with this behavior; this reference definition
exists to compare the two shipped variants against the specified key. -/
def isoWeekKeySpec (y m d : Nat) : String :=
  let z := daysFromCivil y m d
  let dow := jsDayOfWeek z
  let dayNum := if dow = 0 then 7 else dow
  let thursday := z + 4 - dayNum
  let ty := (civilFromDays thursday).1
  let yearStart := daysFromCivil ty 1 1
  let week := (thursday - yearStart + 1 + 6) / 7
  toString ty ++ "-W" ++ padTwo week

/-! ## Data model

`QuestObjective` is an objective definition from the catalog
(`IQuestObjective` in models/Quest).  `ObjectiveProgress` is one entry of the
`Objectives` array of a progress document (`IDailyObjectiveProgress` /
`IWeeklyObjectiveProgress`, which are field-for-field identical).
`QuestProgress` is a progress document with its identity key
`(companyId, userId, dateKey | weekKey)` stripped: every service method
resolves the key first and then works on the single document stored under
it, so the embedding passes that document (or `none`) around explicitly. -/

/-- A catalog objective definition (`IQuestObjective`). -/
structure QuestObjective where
  id : String
  messageCount : Nat
  successMessageCount : Nat
  xpReward : Nat
  order : Nat
deriving Repr, DecidableEq

/-- Daily or weekly quest type. -/
inductive QuestType where
  | daily
  | weekly
deriving Repr, DecidableEq

/-- A quest configuration entry as consumed from `QuestConfigService`
(`getAllQuests` / `getQuestsByType` return the objectives sorted by
`order`). -/
structure Quest where
  questType : QuestType
  objectives : List QuestObjective
deriving Repr, DecidableEq

/-- One entry of a progress document's `Objectives` array. -/
structure ObjectiveProgress where
  objectiveId : String
  messageCount : Nat
  successMessageCount : Nat
  xpReward : Nat
  order : Nat
  completed : Bool
  claimed : Bool
deriving Repr, DecidableEq

/-- A progress document (daily and weekly schemas are identical apart from
the period-key field, which the embedding strips). -/
structure QuestProgress where
  currentMessages : Nat
  currentSuccessMessages : Nat
  Objectives : List ObjectiveProgress
  Completed : Bool
  QuestSeen : Bool
  NotificationCount : Nat
deriving Repr, DecidableEq

/-- Seeding of one objective state from a catalog definition, as written in
the `$setOnInsert` objective lists of `updateDailyProgress` /
`updateWeeklyProgress` and in the `progress.Objectives.push` of
`migrateQuestProgress`: fields copied, `completed = claimed = false`. -/
def seedObjective (c : QuestObjective) : ObjectiveProgress :=
  { objectiveId := c.id
    messageCount := c.messageCount
    successMessageCount := c.successMessageCount
    xpReward := c.xpReward
    order := c.order
    completed := false
    claimed := false }

/-- A freshly upserted progress document (`$setOnInsert` of
`updateDailyProgress` / `updateWeeklyProgress`): zero counters, objective
states seeded from the catalog, `QuestSeen = true`. -/
def freshDoc (cfg : List QuestObjective) : QuestProgress :=
  { currentMessages := 0
    currentSuccessMessages := 0
    Objectives := cfg.map seedObjective
    Completed := false
    QuestSeen := true
    NotificationCount := 0 }

/-- Default daily quest objectives installed by
`QuestConfigService.initializeDefaultQuests`. -/
def defaultDailyObjectives : List QuestObjective :=
  [ { id := "daily_success1", messageCount := 0, successMessageCount := 1,
      xpReward := 10, order := 1 },
    { id := "daily_send10", messageCount := 10, successMessageCount := 0,
      xpReward := 15, order := 2 } ]

/-- Default weekly quest objectives installed by
`QuestConfigService.initializeDefaultQuests`. -/
def defaultWeeklyObjectives : List QuestObjective :=
  [ { id := "weekly_send100", messageCount := 100, successMessageCount := 0,
      xpReward := 15, order := 1 },
    { id := "weekly_success10", messageCount := 0, successMessageCount := 10,
      xpReward := 50, order := 2 } ]

/-- The default catalog as `getAllQuests` returns it. -/
def defaultQuests : List Quest :=
  [ { questType := QuestType.daily, objectives := defaultDailyObjectives },
    { questType := QuestType.weekly, objectives := defaultWeeklyObjectives } ]

/-! ## Completion check (`checkObjectiveCompletionDaily` /
`checkObjectiveCompletionWeekly`, QuestService.ts lines 172-214; the two
methods are textually identical). -/

/-- The per-objective completion test of the check loop: if
`messageCount > 0` compare `currentMessages` against it, else if
`successMessageCount > 0` compare `currentSuccessMessages`, else the
objective never completes. -/
def completesNow (cm cs : Nat) (o : ObjectiveProgress) : Bool :=
  if 0 < o.messageCount then decide (o.messageCount ≤ cm)
  else if 0 < o.successMessageCount then decide (o.successMessageCount ≤ cs)
  else false

/-- One iteration of the check loop: already-completed objectives are
skipped, a newly satisfied objective gets `completed := true` and raises the
`questCompleted` flag. -/
def checkStep (cm cs : Nat) (acc : List ObjectiveProgress × Bool)
    (o : ObjectiveProgress) : List ObjectiveProgress × Bool :=
  if o.completed then (acc.1 ++ [o], acc.2)
  else if completesNow cm cs o then
    (acc.1 ++ [{ o with completed := true }], true)
  else (acc.1 ++ [o], acc.2)

/-- `checkObjectiveCompletionDaily` / `checkObjectiveCompletionWeekly`:
fold the check loop over the objective states; if any objective transitions
to completed, set `QuestSeen := false`, otherwise leave it alone. -/
def checkObjectiveCompletion (p : QuestProgress) : QuestProgress :=
  let r := p.Objectives.foldl (checkStep p.currentMessages p.currentSuccessMessages)
    ([], false)
  { p with Objectives := r.1, QuestSeen := if r.2 then false else p.QuestSeen }

/-- The effect of the check loop on a single objective state. -/
def updObjective (cm cs : Nat) (o : ObjectiveProgress) : ObjectiveProgress :=
  if !o.completed && completesNow cm cs o then { o with completed := true } else o

/-- Whether a single objective state transitions to completed in the check. -/
def newlyCompleted (cm cs : Nat) (o : ObjectiveProgress) : Bool :=
  !o.completed && completesNow cm cs o

/-! ## Event recording (`updateProgress` → `updateDailyProgress` /
`updateWeeklyProgress`, document-level effect). -/

/-- Document-level effect of `updateDailyProgress` / `updateWeeklyProgress`
on an existing document: increment the counter selected by
`isSuccessMessage`, then run the completion check. -/
def applyEvent (isSuccessMessage : Bool) (p : QuestProgress) : QuestProgress :=
  checkObjectiveCompletion
    (if isSuccessMessage then
      { p with currentSuccessMessages := p.currentSuccessMessages + 1 }
    else { p with currentMessages := p.currentMessages + 1 })

/-- Document-level effect of `markQuestSeen` on an existing document. -/
def markSeenDoc (p : QuestProgress) : QuestProgress := { p with QuestSeen := true }

/-! ## Claiming (`claimObjective`, QuestService.ts lines 217-276). -/

/-- Result of `claimObjective`, with one constructor per return site.  The
four failure constructors carry the error strings `'Objective not found'`,
`'Quest progress not found'`, `'Objective progress not found'`,
`'Objective not completed yet'`, `'Objective already claimed'`; all failure
returns also carry `xp: 0`. -/
inductive ClaimOutcome where
  | objectiveNotFound
  | progressNotFound
  | objectiveProgressNotFound
  | notCompleted
  | alreadyClaimed
  | success (xp : Nat)
deriving Repr, DecidableEq

/-- Resolution of an objective id against the catalog (the
`for (const quest of allQuests)` loop of `claimObjective`): the first quest
whose objective list contains the id yields the objective definition and the
quest type. -/
def findObjective (quests : List Quest) (objectiveId : String) :
    Option (QuestObjective × QuestType) :=
  match quests with
  | [] => none
  | q :: rest =>
    match q.objectives.find? (fun o => o.id == objectiveId) with
    | some o => some (o, q.questType)
    | none => findObjective rest objectiveId

/-- In-place mutation `objectiveProgress.claimed = true` of the element that
`progress.Objectives.find(...)` returned: the first state with the matching
id gets `claimed := true`. -/
def setClaimedOnFirst (objectiveId : String) :
    List ObjectiveProgress → List ObjectiveProgress
  | [] => []
  | o :: rest =>
    if o.objectiveId == objectiveId then { o with claimed := true } :: rest
    else o :: setClaimedOnFirst objectiveId rest

/-- The per-document part of `claimObjective` after the objective resolved
in the catalog with reward `xp`: the guard chain over the loaded document.
The second component is the document value written back by
`progress.save()` (`none` when the branch returns without saving). -/
def claimOnDoc (xp : Nat) (objectiveId : String) (doc? : Option QuestProgress) :
    ClaimOutcome × Option QuestProgress :=
  match doc? with
  | none => (ClaimOutcome.progressNotFound, none)
  | some p =>
    match p.Objectives.find? (fun o => o.objectiveId == objectiveId) with
    | none => (ClaimOutcome.objectiveProgressNotFound, none)
    | some op =>
      if op.completed = false then (ClaimOutcome.notCompleted, none)
      else if op.claimed = true then (ClaimOutcome.alreadyClaimed, none)
      else
        (ClaimOutcome.success xp,
         some { p with Objectives := setClaimedOnFirst objectiveId p.Objectives })

/-- `claimObjective`: resolve the objective in the catalog (returning the
`'Objective not found'` failure when it is absent), select the daily or
weekly store slot by the resolved quest type, run the guard chain, and on
success persist the mutated document to that slot.  On success the returned
`xp` is `objective.xpReward` — the resolved catalog definition's reward, not
the `xpReward` stored in the document's objective state. -/
def claimObjective (quests : List Quest) (objectiveId : String)
    (daily? weekly? : Option QuestProgress) :
    ClaimOutcome × Option QuestProgress × Option QuestProgress :=
  match findObjective quests objectiveId with
  | none => (ClaimOutcome.objectiveNotFound, daily?, weekly?)
  | some (obj, QuestType.daily) =>
    match claimOnDoc obj.xpReward objectiveId daily? with
    | (r, some d) => (r, some d, weekly?)
    | (r, none) => (r, daily?, weekly?)
  | some (obj, QuestType.weekly) =>
    match claimOnDoc obj.xpReward objectiveId weekly? with
    | (r, some d) => (r, daily?, some d)
    | (r, none) => (r, daily?, weekly?)

/-- Document-level effect of a claim: `claimed := true` on the first state
matching the id when that state is completed and unclaimed, otherwise no
change (every failure branch of `claimObjective` returns before mutating). -/
def claimUpdate (objectiveId : String) (p : QuestProgress) : QuestProgress :=
  match p.Objectives.find? (fun o => o.objectiveId == objectiveId) with
  | none => p
  | some op =>
    if op.completed && !op.claimed then
      { p with Objectives := setClaimedOnFirst objectiveId p.Objectives }
    else p

/-! ## Catalog migration (`migrateQuestProgress`, QuestService.ts lines
571-728; the daily and weekly halves are textually identical). -/

/-- The update half of the migration loop on one objective state: if the
catalog still has a definition with this id (first match), overwrite
`messageCount` / `successMessageCount` / `xpReward` / `order` with the
catalog's values when any of the four differ; otherwise leave the state
untouched. -/
def migrateOne (cfg : List QuestObjective) (o : ObjectiveProgress) :
    ObjectiveProgress :=
  match cfg.find? (fun c => c.id == o.objectiveId) with
  | some c =>
    if o.messageCount ≠ c.messageCount ∨
        o.successMessageCount ≠ c.successMessageCount ∨
        o.xpReward ≠ c.xpReward ∨ o.order ≠ c.order then
      { o with messageCount := c.messageCount
               successMessageCount := c.successMessageCount
               xpReward := c.xpReward
               order := c.order }
    else o
  | none => o

/-- `migrateQuestProgress` on one document's objective list: append a
seeded state for every catalog objective whose id is missing from the list
(membership tested against the ids captured before the loop), then run the
update half over every state. -/
def migrateObjectives (cfg : List QuestObjective)
    (objs : List ObjectiveProgress) : List ObjectiveProgress :=
  let added := (cfg.filter
    (fun c => !(objs.any (fun o => o.objectiveId == c.id)))).map seedObjective
  (objs ++ added).map (migrateOne cfg)

/-- `migrateQuestProgress` on one document: only the objective list changes;
counters, `Completed`, `QuestSeen` and `NotificationCount` are untouched. -/
def migrateDoc (cfg : List QuestObjective) (p : QuestProgress) : QuestProgress :=
  { p with Objectives := migrateObjectives cfg p.Objectives }

/-! ## Read model (`getUserProgress`, configured-quests path, QuestService.ts
lines 388-477).

`getUserProgress` loads the daily and weekly documents, runs
`migrateQuestProgress` (which loads and saves its own copies of the stored
documents, so the documents already held in memory here do not see its
changes), runs the completion check on the in-memory documents, and builds
the response from the catalog's objective list sorted by `order`. -/

/-- One response objective of `getUserProgress` (id, title, description,
progress, target, completed, claimed, xp, order). -/
structure ViewObjective where
  id : String
  title : String
  description : String
  progress : Nat
  target : Nat
  completed : Bool
  claimed : Bool
  xp : Nat
  order : Nat
deriving Repr, DecidableEq

/-- JavaScript plural suffix `n > 1 ? 's' : ''`. -/
def pluralSuffix (n : Nat) : String := if 1 < n then "s" else ""

/-- One iteration of the response-building `map`: look up the matching
objective state, cap the counter of the objective's metric at its target,
and synthesize the title and description from the metric type. -/
def buildViewObjective (doc : QuestProgress) (objective : QuestObjective) :
    ViewObjective :=
  let objectiveProgress :=
    doc.Objectives.find? (fun o => o.objectiveId == objective.id)
  let current := if 0 < objective.messageCount then doc.currentMessages
    else doc.currentSuccessMessages
  let target := if 0 < objective.messageCount then objective.messageCount
    else objective.successMessageCount
  let isSuccessObjective := 0 < objective.successMessageCount
  { id := objective.id
    title :=
      if isSuccessObjective then
        "Send " ++ toString objective.successMessageCount ++ " Success Message" ++
          pluralSuffix objective.successMessageCount
      else
        "Send " ++ toString objective.messageCount ++ " Message" ++
          pluralSuffix objective.messageCount
    description :=
      if isSuccessObjective then
        "Send " ++ toString objective.successMessageCount ++ " message" ++
          pluralSuffix objective.successMessageCount ++ " in success channels"
      else
        "Send " ++ toString objective.messageCount ++ " message" ++
          pluralSuffix objective.messageCount ++ " in any channel"
    progress := min current target
    target := target
    completed := (objectiveProgress.map ObjectiveProgress.completed).getD false
    claimed := (objectiveProgress.map ObjectiveProgress.claimed).getD false
    xp := objective.xpReward
    order := objective.order }

/-- The per-type block of the `getUserProgress` response. -/
structure ProgressView where
  msgCount : Nat
  successMsgCount : Nat
  objectives : List ViewObjective
  questSeen : Bool
  notificationCount : Nat
deriving Repr, DecidableEq

/-- Stable insertion of a definition into a list sorted by `order`: the
definition goes in front of the first entry whose `order` is not smaller. -/
def insertByOrder (x : QuestObjective) :
    List QuestObjective → List QuestObjective
  | [] => [x]
  | y :: rest =>
    if y.order < x.order then y :: insertByOrder x rest
    else x :: y :: rest

/-- The JavaScript `sort((a, b) => a.order - b.order)` — a stable sort by
the `order` field — as a structural insertion sort. -/
def sortByOrder (l : List QuestObjective) : List QuestObjective :=
  l.foldr insertByOrder []

/-- The per-type half of the configured-quests response: objectives come
from the catalog sorted by `order`; `msgCount` and `successMsgCount` are
each computed by `objectives.reduce((sum, o) => sum + o.progress, 0)` — the
same expression for both fields. -/
def buildQuestView (questObjectives : List QuestObjective) (doc : QuestProgress) :
    ProgressView :=
  let sorted := sortByOrder questObjectives
  let objectives := sorted.map (buildViewObjective doc)
  { msgCount := objectives.foldl (fun sum o => sum + o.progress) 0
    successMsgCount := objectives.foldl (fun sum o => sum + o.progress) 0
    objectives := objectives
    questSeen := doc.QuestSeen
    notificationCount :=
      (objectives.filter (fun o => o.completed && !o.claimed)).length }

/-- The `getUserProgress` response. -/
structure UserProgress where
  daily : ProgressView
  weekly : ProgressView
deriving Repr, DecidableEq

/-- The configured-quests path of `getUserProgress` on the two documents it
loaded: completion check on each in-memory document, then build both views.
(The interleaved `migrateQuestProgress` call operates on separately loaded
store copies and does not alter these in-memory documents.) -/
def getUserProgressConfigured (dailyObjs weeklyObjs : List QuestObjective)
    (dailyDoc weeklyDoc : QuestProgress) : UserProgress :=
  { daily := buildQuestView dailyObjs (checkObjectiveCompletion dailyDoc)
    weekly := buildQuestView weeklyObjs (checkObjectiveCompletion weeklyDoc) }

/-! ## Error swallowing (`updateProgress` lines 60-63, `getUserProgress`
lines 480-515).

The service methods wrap their bodies in `try { ... } catch { ... }`.  The
body is embedded as an `Except` value: `Except.ok` is the value the body
returns, `Except.error` a thrown collaborator failure (store or catalog
unavailable).  The functions below are the catch handlers. -/

/-- A collaborator failure thrown inside a service method. -/
inductive ServiceFailure where
  | storeUnavailable
  | catalogUnavailable
deriving Repr, DecidableEq

/-- The result record of `updateProgress`; all three fields are optional in
the TypeScript return type and are all absent in the catch branch. -/
structure UpdateProgressResult where
  dailyProgress : Option QuestProgress
  weeklyProgress : Option QuestProgress
  completedObjectives : Option (List String)
deriving Repr, DecidableEq

/-- The catch handler of `updateProgress` (lines 60-63): any thrown failure
is logged and replaced by the empty record `{}`. -/
def updateProgressCaught (attempt : Except ServiceFailure UpdateProgressResult) :
    UpdateProgressResult :=
  match attempt with
  | Except.ok r => r
  | Except.error _ =>
    { dailyProgress := none, weeklyProgress := none, completedObjectives := none }

/-- The value `getUserProgress` returns on its legitimate no-configuration
path (lines 480-496): both views zeroed and empty. -/
def getUserProgressNoConfig : UserProgress :=
  { daily :=
      { msgCount := 0, successMsgCount := 0, objectives := [],
        questSeen := false, notificationCount := 0 }
    weekly :=
      { msgCount := 0, successMsgCount := 0, objectives := [],
        questSeen := false, notificationCount := 0 } }

/-- The catch handler of `getUserProgress` (lines 497-515): any thrown
failure is logged and replaced by a zeroed response literal. -/
def getUserProgressCaught (attempt : Except ServiceFailure UserProgress) :
    UserProgress :=
  match attempt with
  | Except.ok r => r
  | Except.error _ =>
    { daily :=
        { msgCount := 0, successMsgCount := 0, objectives := [],
          questSeen := false, notificationCount := 0 }
      weekly :=
        { msgCount := 0, successMsgCount := 0, objectives := [],
          questSeen := false, notificationCount := 0 } }

/-! ## Concurrency model for claiming.

`claimObjective` performs `findOne` (read), decides and mutates in memory,
then `save` (unconditional write) — there is no conditional write guarding
the `claimed` flag.  A concurrent execution of two claim calls is modelled
by making each call read its own snapshot of the store slot and write back
its saved document; the interleaving below lets both calls read before
either writes. -/

/-- One claim call's local computation on the snapshot it read: catalog
resolution followed by the guard chain; the second component is the
document it will `save` (if any). -/
def claimCallOnSnapshot (quests : List Quest) (objectiveId : String)
    (snapshot : Option QuestProgress) : ClaimOutcome × Option QuestProgress :=
  match findObjective quests objectiveId with
  | none => (ClaimOutcome.objectiveNotFound, none)
  | some (obj, _) => claimOnDoc obj.xpReward objectiveId snapshot

/-- Two concurrent claim calls for the same objective under the
read-read-write-write interleaving: both calls `findOne` the same stored
document, then each writes its saved value back in turn.  Returns both
outcomes and the final store slot. -/
def twoClaimsInterleaved (quests : List Quest) (objectiveId : String)
    (s0 : Option QuestProgress) :
    ClaimOutcome × ClaimOutcome × Option QuestProgress :=
  let a := claimCallOnSnapshot quests objectiveId s0
  let b := claimCallOnSnapshot quests objectiveId s0
  let s1 := match a.2 with | some d => some d | none => s0
  let s2 := match b.2 with | some d => some d | none => s1
  (a.1, b.1, s2)

/-! ## Reachable documents.

The four document-level operations of the service, as a step relation for
the lifecycle invariant. -/

/-- One document-level operation of the service. -/
inductive QStep : QuestProgress → QuestProgress → Prop where
  | event (isSuccessMessage : Bool) (p : QuestProgress) :
      QStep p (applyEvent isSuccessMessage p)
  | claim (objectiveId : String) (p : QuestProgress) :
      QStep p (claimUpdate objectiveId p)
  | seen (p : QuestProgress) : QStep p (markSeenDoc p)
  | migrate (cfg : List QuestObjective) (p : QuestProgress) :
      QStep p (migrateDoc cfg p)

/-- Documents reachable from a freshly seeded document through any sequence
of record-event, claim, mark-seen and migration operations. -/
inductive Reachable : QuestProgress → Prop where
  | init (cfg : List QuestObjective) : Reachable (freshDoc cfg)
  | step {p q : QuestProgress} : Reachable p → QStep p q → Reachable q

/-! ## Concrete fixtures used by counterexamples and witnesses. -/

/-- Catalog for the reward-source scenario: one daily objective whose
current catalog reward (99) differs from the reward snapshotted in the
progress document (10). -/
def rewardQuests : List Quest :=
  [ { questType := QuestType.daily,
      objectives :=
        [ { id := "obj1", messageCount := 5, successMessageCount := 0,
            xpReward := 99, order := 1 } ] } ]

/-- Progress document for the reward-source scenario: the state for "obj1"
was seeded when the catalog reward was 10 and is completed but unclaimed. -/
def rewardDoc : QuestProgress :=
  { currentMessages := 7
    currentSuccessMessages := 0
    Objectives :=
      [ { objectiveId := "obj1", messageCount := 5, successMessageCount := 0,
          xpReward := 10, order := 1, completed := true, claimed := false } ]
    Completed := false
    QuestSeen := true
    NotificationCount := 0 }

/-- Catalog for the new-objective migration scenario of spec §8: the daily
quest gained a second objective with `messageCount = 10`, `xpReward = 15`. -/
def grownDailyCfg : List QuestObjective :=
  [ { id := "daily_old", messageCount := 0, successMessageCount := 1,
      xpReward := 10, order := 1 },
    { id := "daily_new", messageCount := 10, successMessageCount := 0,
      xpReward := 15, order := 2 } ]

/-- Existing daily progress document for the migration scenario: already at
`currentMessages = 12`, holding only the original objective's state. -/
def grownDailyDoc : QuestProgress :=
  { currentMessages := 12
    currentSuccessMessages := 3
    Objectives :=
      [ { objectiveId := "daily_old", messageCount := 0, successMessageCount := 1,
          xpReward := 10, order := 1, completed := true, claimed := true } ]
    Completed := false
    QuestSeen := true
    NotificationCount := 0 }

/-- A daily document under the default catalog whose first objective is
completed and unclaimed — the state in which concurrent claims race. -/
def raceDoc : QuestProgress :=
  { currentMessages := 0
    currentSuccessMessages := 1
    Objectives :=
      [ { objectiveId := "daily_success1", messageCount := 0,
          successMessageCount := 1, xpReward := 10, order := 1,
          completed := true, claimed := false },
        { objectiveId := "daily_send10", messageCount := 10,
          successMessageCount := 0, xpReward := 15, order := 2,
          completed := false, claimed := false } ]
    Completed := false
    QuestSeen := false
    NotificationCount := 0 }

/-! ## Theorems. -/

/-- C3: at the year-boundary reference date (NY-local 2024-12-31) the
shipped `getWeekKey` returns "2024-W01" — the ISO week number prefixed with
the instant's own calendar year — and the part_002 variant returns
"2025-W00"; neither matches the ISO-8601 key "2025-W01" that the spec
requires, which the Thursday-anchored reference definition produces. -/
theorem weekKey_year_boundary_eval :
    getWeekKey 2024 12 31 = "2024-W01" ∧
    getWeekKeyVariant 2024 12 31 = "2025-W00" ∧
    isoWeekKeySpec 2024 12 31 = "2025-W01" ∧
    getWeekKey 2024 12 31 ≠ isoWeekKeySpec 2024 12 31 ∧
    getWeekKeyVariant 2024 12 31 ≠ isoWeekKeySpec 2024 12 31 := by
  refine ⟨by decide, by decide, by decide, by decide, by decide⟩

/-- C8: a thrown collaborator failure inside `getUserProgress` is caught and
replaced by a zeroed response that is equal to — hence indistinguishable
from — the response of the legitimate no-configuration path, and a failure
inside `updateProgress` is caught and replaced by the empty record. -/
theorem collaborator_failure_swallowed_eval :
    getUserProgressCaught (Except.error ServiceFailure.storeUnavailable) =
      getUserProgressNoConfig ∧
    getUserProgressCaught (Except.error ServiceFailure.catalogUnavailable) =
      getUserProgressNoConfig ∧
    updateProgressCaught (Except.error ServiceFailure.storeUnavailable) =
      { dailyProgress := none, weeklyProgress := none,
        completedObjectives := none } := by
  refine ⟨rfl, rfl, rfl⟩

/-- C9: under the read-read-write-write interleaving of two concurrent
claim calls for the completed, unclaimed objective "daily_success1", both
calls return success — the read-modify-write `findOne`/`save` sequence of
`claimObjective` is not exactly-once. -/
theorem concurrent_claims_both_succeed_eval :
    (twoClaimsInterleaved defaultQuests "daily_success1" (some raceDoc)).1 =
      ClaimOutcome.success 10 ∧
    (twoClaimsInterleaved defaultQuests "daily_success1" (some raceDoc)).2.1 =
      ClaimOutcome.success 10 := by
  refine ⟨by decide, by decide⟩

/-- C1 (counterexample): claiming "obj1" succeeds and returns 99 — the
`xpReward` of the objective definition currently in the catalog — while the
snapshot stored in the progress document's objective state records 10; the
claim says the snapshot value (10) is what a successful claim returns. -/
theorem claim_reward_source_counterexample :
    (claimObjective rewardQuests "obj1" (some rewardDoc) none).1 =
      ClaimOutcome.success 99 ∧
    (rewardDoc.Objectives.find? (fun o => o.objectiveId == "obj1")).map
      ObjectiveProgress.xpReward = some 10 ∧
    (99 : Nat) ≠ 10 := by
  refine ⟨by decide, by decide, by decide⟩

/-- C1 (amended): for every successful claim, the returned `xpReward`
equals the `xpReward` of the objective definition resolved from the live
catalog; when catalog and snapshot differ, the catalog value is returned. -/
theorem claim_returns_catalog_reward (quests : List Quest) (objectiveId : String)
    (daily? weekly? : Option QuestProgress) (obj : QuestObjective)
    (qt : QuestType) (xp : Nat)
    (hres : findObjective quests objectiveId = some (obj, qt))
    (hsucc : (claimObjective quests objectiveId daily? weekly?).1 =
      ClaimOutcome.success xp) :
    xp = obj.xpReward := by
  have onDoc : ∀ (doc? : Option QuestProgress),
      (claimOnDoc obj.xpReward objectiveId doc?).1 = ClaimOutcome.success xp →
      xp = obj.xpReward := by
    intro doc? h
    unfold claimOnDoc at h
    cases doc? with
    | none => simp at h
    | some p =>
      simp only at h
      cases hf : p.Objectives.find? (fun o => o.objectiveId == objectiveId) with
      | none => rw [hf] at h; simp at h
      | some op =>
        rw [hf] at h
        by_cases hc : op.completed = false
        · simp [hc] at h
        · by_cases hcl : op.claimed = true
          · simp [hc, hcl] at h
          · simp [hc, hcl] at h
            exact h.symm
  unfold claimObjective at hsucc
  rw [hres] at hsucc
  cases qt with
  | daily =>
    cases hd : claimOnDoc obj.xpReward objectiveId daily? with
    | mk r w =>
      simp only [] at hsucc
      rw [hd] at hsucc
      refine onDoc daily? ?_
      rw [hd]
      cases w <;> simpa using hsucc
  | weekly =>
    cases hd : claimOnDoc obj.xpReward objectiveId weekly? with
    | mk r w =>
      simp only [] at hsucc
      rw [hd] at hsucc
      refine onDoc weekly? ?_
      rw [hd]
      cases w <;> simpa using hsucc

/-- C1 (witness for the amended theorem): with the reward-source fixture the
successful claim's reward is the catalog reward 99. -/
theorem claim_returns_catalog_reward_witness : (99 : Nat) = 99 :=
  claim_returns_catalog_reward rewardQuests "obj1" (some rewardDoc) none
    { id := "obj1", messageCount := 5, successMessageCount := 0,
      xpReward := 99, order := 1 }
    QuestType.daily 99 (by decide) (by decide)

/-- C4 (counterexample): in the §8 migration scenario — catalog gains
"daily_new" with `messageCount = 10`, `xpReward = 15`, document already at
`currentMessages = 12` — the migration run appends the new objective state
with `completed = false` (and `claimed = false`), not `completed = true` as
the claim states: migration never runs the completion check. -/
theorem migration_new_objective_counterexample :
    ((migrateDoc grownDailyCfg grownDailyDoc).Objectives.find?
      (fun o => o.objectiveId == "daily_new")).map
      (fun o => (o.completed, o.claimed)) = some (false, false) ∧
    ¬(((migrateDoc grownDailyCfg grownDailyDoc).Objectives.find?
      (fun o => o.objectiveId == "daily_new")).map
      (fun o => (o.completed, o.claimed)) = some (true, false)) := by
  refine ⟨by decide, by decide⟩

/-- C4 (amended): in the same scenario, the migration run appends the state
for the new objective with `completed = false` and `claimed = false`; the
next completion check that runs over the migrated document (such as the one
a subsequent read-model build or recorded event performs) marks it
`completed = true` with `claimed` still `false`. -/
theorem migration_then_check_completes :
    ((migrateDoc grownDailyCfg grownDailyDoc).Objectives.find?
      (fun o => o.objectiveId == "daily_new")).map
      (fun o => (o.completed, o.claimed)) = some (false, false) ∧
    ((checkObjectiveCompletion (migrateDoc grownDailyCfg grownDailyDoc)).Objectives.find?
      (fun o => o.objectiveId == "daily_new")).map
      (fun o => (o.completed, o.claimed)) = some (true, false) := by
  refine ⟨by decide, by decide⟩

/-- The completion-check fold is the pointwise update of every objective
state, with the `questCompleted` flag accumulating whether any state
transitions. -/
theorem checkFold_eq (cm cs : Nat) (l acc : List ObjectiveProgress) (b : Bool) :
    l.foldl (checkStep cm cs) (acc, b) =
      (acc ++ l.map (updObjective cm cs), b || l.any (newlyCompleted cm cs)) := by
  induction l generalizing acc b with
  | nil => simp
  | cons o rest ih =>
    by_cases hc : o.completed = true
    · have hstep : checkStep cm cs (acc, b) o = (acc ++ [o], b) := by
        simp [checkStep, hc]
      have hupd : updObjective cm cs o = o := by simp [updObjective, hc]
      have hnew : newlyCompleted cm cs o = false := by simp [newlyCompleted, hc]
      simp [List.foldl_cons, hstep, ih, hupd, hnew]
    · by_cases hn : completesNow cm cs o = true
      · have hstep : checkStep cm cs (acc, b) o =
            (acc ++ [{ o with completed := true }], true) := by
          simp [checkStep, hc, hn]
        have hupd : updObjective cm cs o = { o with completed := true } := by
          simp [updObjective, hc, hn]
        have hnew : newlyCompleted cm cs o = true := by
          simp [newlyCompleted, hc, hn]
        simp [List.foldl_cons, hstep, ih, hupd, hnew]
      · have hstep : checkStep cm cs (acc, b) o = (acc ++ [o], b) := by
          simp [checkStep, hc, hn]
        have hupd : updObjective cm cs o = o := by simp [updObjective, hc, hn]
        have hnew : newlyCompleted cm cs o = false := by
          simp [newlyCompleted, hc, hn]
        simp [List.foldl_cons, hstep, ih, hupd, hnew]

/-- Closed form of the completion check: map the pointwise update over the
objective states and lower `QuestSeen` exactly when some state transitions. -/
theorem checkObjectiveCompletion_eq (p : QuestProgress) :
    checkObjectiveCompletion p =
      { p with
        Objectives := p.Objectives.map
          (updObjective p.currentMessages p.currentSuccessMessages)
        QuestSeen :=
          if p.Objectives.any
            (newlyCompleted p.currentMessages p.currentSuccessMessages)
          then false else p.QuestSeen } := by
  unfold checkObjectiveCompletion
  rw [checkFold_eq]
  simp

/-- C6: the completion check marks a not-yet-completed objective state
completed exactly when its `messageCount` is positive and met by
`currentMessages`, or its `messageCount` is zero and its
`successMessageCount` is positive and met by `currentSuccessMessages`; a
state with both thresholds zero is never marked; and `QuestSeen` is set to
false exactly when at least one state transitions, otherwise kept. -/
theorem completion_check_spec (p : QuestProgress) :
    ((checkObjectiveCompletion p).Objectives =
      p.Objectives.map (updObjective p.currentMessages p.currentSuccessMessages)) ∧
    ((checkObjectiveCompletion p).QuestSeen =
      if p.Objectives.any
        (newlyCompleted p.currentMessages p.currentSuccessMessages)
      then false else p.QuestSeen) ∧
    (∀ o : ObjectiveProgress,
      updObjective p.currentMessages p.currentSuccessMessages o =
        if o.completed = false ∧
            ((0 < o.messageCount ∧ o.messageCount ≤ p.currentMessages) ∨
             (o.messageCount = 0 ∧ 0 < o.successMessageCount ∧
               o.successMessageCount ≤ p.currentSuccessMessages))
        then { o with completed := true } else o) ∧
    (∀ o : ObjectiveProgress, o.messageCount = 0 → o.successMessageCount = 0 →
      updObjective p.currentMessages p.currentSuccessMessages o = o) := by
  refine ⟨by rw [checkObjectiveCompletion_eq], by rw [checkObjectiveCompletion_eq], ?_, ?_⟩
  · intro o
    cases hco : o.completed with
    | true => simp [updObjective, hco]
    | false =>
      rcases Nat.eq_zero_or_pos o.messageCount with hm | hm
      · rcases Nat.eq_zero_or_pos o.successMessageCount with hs | hs
        · simp [updObjective, completesNow, hco, hm, hs]
        · by_cases hle : o.successMessageCount ≤ p.currentSuccessMessages
          · simp [updObjective, completesNow, hco, hm, hs, hle]
          · simp [updObjective, completesNow, hco, hm, hs, hle]
      · by_cases hle : o.messageCount ≤ p.currentMessages
        · simp [updObjective, completesNow, hco, hm, Nat.pos_iff_ne_zero.mp hm, hle]
        · simp [updObjective, completesNow, hco, hm, Nat.pos_iff_ne_zero.mp hm, hle]
  · intro o h1 h2
    simp [updObjective, completesNow, h1, h2]

/-- C6 (witness): a state with both thresholds zero is left untouched by the
check of a document with counters 5 and 7. -/
theorem completion_check_spec_witness :
    updObjective 5 7
      { objectiveId := "z", messageCount := 0, successMessageCount := 0,
        xpReward := 1, order := 1, completed := false, claimed := false } =
      { objectiveId := "z", messageCount := 0, successMessageCount := 0,
        xpReward := 1, order := 1, completed := false, claimed := false } :=
  (completion_check_spec
    { currentMessages := 5, currentSuccessMessages := 7, Objectives := [],
      Completed := false, QuestSeen := true, NotificationCount := 0 }).2.2.2
    { objectiveId := "z", messageCount := 0, successMessageCount := 0,
      xpReward := 1, order := 1, completed := false, claimed := false } rfl rfl

/-- The migration update step never touches the `completed` and `claimed`
flags or the state's id. -/
theorem migrateOne_flags (cfg : List QuestObjective) (o : ObjectiveProgress) :
    (migrateOne cfg o).completed = o.completed ∧
    (migrateOne cfg o).claimed = o.claimed ∧
    (migrateOne cfg o).objectiveId = o.objectiveId := by
  cases hf : cfg.find? (fun c => c.id == o.objectiveId) with
  | none => refine ⟨?_, ?_, ?_⟩ <;> simp only [migrateOne, hf]
  | some c => refine ⟨?_, ?_, ?_⟩ <;> simp only [migrateOne, hf] <;> split <;> rfl

/-- When the catalog still carries the state's id, the migration update step
leaves the state holding exactly the catalog's four definition fields. -/
theorem migrateOne_fields (cfg : List QuestObjective) (o : ObjectiveProgress)
    (c : QuestObjective)
    (hfind : cfg.find? (fun c2 => c2.id == o.objectiveId) = some c) :
    (migrateOne cfg o).messageCount = c.messageCount ∧
    (migrateOne cfg o).successMessageCount = c.successMessageCount ∧
    (migrateOne cfg o).xpReward = c.xpReward ∧
    (migrateOne cfg o).order = c.order := by
  simp only [migrateOne, hfind]
  split
  · exact ⟨rfl, rfl, rfl, rfl⟩
  · rename_i hng
    push_neg at hng
    exact ⟨hng.1, hng.2.1, hng.2.2.1, hng.2.2.2⟩

/-- C5: migration keeps every pre-existing objective state in place (the
first `p.Objectives.length` entries of the migrated list are exactly the
originals run through the update step); the update step never changes
`completed`, `claimed` or the id; when the state's id is still in the
catalog the four definition fields end up equal to the catalog's values;
and a state whose id is gone from the catalog is left entirely unchanged. -/
theorem migration_frame (cfg : List QuestObjective) (p : QuestProgress) :
    ((migrateDoc cfg p).Objectives.take p.Objectives.length =
      p.Objectives.map (migrateOne cfg)) ∧
    (∀ o : ObjectiveProgress,
      (migrateOne cfg o).completed = o.completed ∧
      (migrateOne cfg o).claimed = o.claimed) ∧
    (∀ o : ObjectiveProgress, ∀ c : QuestObjective,
      cfg.find? (fun c2 => c2.id == o.objectiveId) = some c →
      (migrateOne cfg o).messageCount = c.messageCount ∧
      (migrateOne cfg o).successMessageCount = c.successMessageCount ∧
      (migrateOne cfg o).xpReward = c.xpReward ∧
      (migrateOne cfg o).order = c.order) ∧
    (∀ o : ObjectiveProgress,
      cfg.find? (fun c2 => c2.id == o.objectiveId) = none →
      migrateOne cfg o = o) := by
  refine ⟨?_, ?_, ?_, ?_⟩
  · show ((p.Objectives ++ _).map (migrateOne cfg)).take p.Objectives.length = _
    rw [List.map_append]
    rw [show p.Objectives.length = (p.Objectives.map (migrateOne cfg)).length from
      (List.length_map _ _).symm]
    exact List.take_left _ _
  · intro o
    exact ⟨(migrateOne_flags cfg o).1, (migrateOne_flags cfg o).2.1⟩
  · intro o c hfind
    exact migrateOne_fields cfg o c hfind
  · intro o hfind
    unfold migrateOne
    rw [hfind]

/-- C5 (witness): under the grown daily catalog, a stale state for
"daily_old" keeps its flags and takes the catalog's reward 10, and a state
for an id the catalog no longer carries is unchanged. -/
theorem migration_frame_witness :
    (migrateOne grownDailyCfg
      { objectiveId := "daily_old", messageCount := 3, successMessageCount := 3,
        xpReward := 3, order := 3, completed := true, claimed := true }).claimed = true ∧
    (migrateOne grownDailyCfg
      { objectiveId := "daily_old", messageCount := 3, successMessageCount := 3,
        xpReward := 3, order := 3, completed := true, claimed := true }).xpReward = 10 ∧
    migrateOne grownDailyCfg
      { objectiveId := "gone", messageCount := 4, successMessageCount := 0,
        xpReward := 5, order := 9, completed := true, claimed := true } =
      { objectiveId := "gone", messageCount := 4, successMessageCount := 0,
        xpReward := 5, order := 9, completed := true, claimed := true } := by
  refine ⟨?_, ?_, ?_⟩
  · exact ((migration_frame grownDailyCfg grownDailyDoc).2.1
      { objectiveId := "daily_old", messageCount := 3, successMessageCount := 3,
        xpReward := 3, order := 3, completed := true, claimed := true }).2
  · exact ((migration_frame grownDailyCfg grownDailyDoc).2.2.1
      { objectiveId := "daily_old", messageCount := 3, successMessageCount := 3,
        xpReward := 3, order := 3, completed := true, claimed := true }
      { id := "daily_old", messageCount := 0, successMessageCount := 1,
        xpReward := 10, order := 1 } (by decide)).2.2.1
  · exact (migration_frame grownDailyCfg grownDailyDoc).2.2.2
      { objectiveId := "gone", messageCount := 4, successMessageCount := 0,
        xpReward := 5, order := 9, completed := true, claimed := true } (by decide)

/-- Setting the claimed flag on the first matching state turns exactly the
state that `find?` located into its claimed copy. -/
theorem find?_setClaimedOnFirst (objectiveId : String)
    (l : List ObjectiveProgress) (op : ObjectiveProgress)
    (h : l.find? (fun o => o.objectiveId == objectiveId) = some op) :
    (setClaimedOnFirst objectiveId l).find?
      (fun o => o.objectiveId == objectiveId) = some { op with claimed := true } := by
  induction l with
  | nil => simp at h
  | cons a rest ih =>
    by_cases hm : (a.objectiveId == objectiveId) = true
    · simp only [List.find?, hm] at h
      injection h with h
      subst h
      simp only [setClaimedOnFirst, hm, if_true]
      simp [List.find?, hm]
    · have hm' : (a.objectiveId == objectiveId) = false := by
        simpa using hm
      simp only [List.find?, hm'] at h
      simp only [setClaimedOnFirst, hm', Bool.false_eq_true, if_false]
      simp only [List.find?, hm']
      exact ih h

/-- C2: once the objective id resolves in the catalog to a definition and a
quest type, the claim operation fails with the progress-not-found error when
the resolved period holds no document, fails with the
objective-progress-not-found error when the document has no state with that
id, fails with the not-completed error when the state is not completed,
fails with the already-claimed error when it is already claimed, and in
exactly the remaining case (completed and unclaimed) succeeds with the
resolved reward, persisting the document with that state's claimed flag set;
every failing outcome leaves both store slots unchanged. -/
theorem claim_case_analysis (quests : List Quest) (objectiveId : String)
    (daily? weekly? : Option QuestProgress) (obj : QuestObjective) (qt : QuestType)
    (hres : findObjective quests objectiveId = some (obj, qt)) :
    ((match qt with
      | QuestType.daily => daily?
      | QuestType.weekly => weekly?) = none →
      claimObjective quests objectiveId daily? weekly? =
        (ClaimOutcome.progressNotFound, daily?, weekly?)) ∧
    (∀ p : QuestProgress,
      (match qt with
        | QuestType.daily => daily?
        | QuestType.weekly => weekly?) = some p →
      ((p.Objectives.find? (fun o => o.objectiveId == objectiveId) = none →
        claimObjective quests objectiveId daily? weekly? =
          (ClaimOutcome.objectiveProgressNotFound, daily?, weekly?)) ∧
      (∀ op : ObjectiveProgress,
        p.Objectives.find? (fun o => o.objectiveId == objectiveId) = some op →
        ((op.completed = false →
          claimObjective quests objectiveId daily? weekly? =
            (ClaimOutcome.notCompleted, daily?, weekly?)) ∧
        (op.completed = true → op.claimed = true →
          claimObjective quests objectiveId daily? weekly? =
            (ClaimOutcome.alreadyClaimed, daily?, weekly?)) ∧
        (op.completed = true → op.claimed = false →
          claimObjective quests objectiveId daily? weekly? =
            (ClaimOutcome.success obj.xpReward,
              match qt with
              | QuestType.daily =>
                (some { p with
                  Objectives := setClaimedOnFirst objectiveId p.Objectives },
                 weekly?)
              | QuestType.weekly =>
                (daily?,
                 some { p with
                  Objectives := setClaimedOnFirst objectiveId p.Objectives })) ∧
          (setClaimedOnFirst objectiveId p.Objectives).find?
              (fun o => o.objectiveId == objectiveId) =
            some { op with claimed := true }))))) := by
  cases qt with
  | daily =>
    refine ⟨?_, ?_⟩
    · intro hnone
      simp only [] at hnone
      simp [claimObjective, hres, claimOnDoc, hnone]
    · intro p hp
      simp only [] at hp
      refine ⟨?_, ?_⟩
      · intro hfind
        simp [claimObjective, hres, claimOnDoc, hp, hfind]
      · intro op hop
        refine ⟨?_, ?_, ?_⟩
        · intro hnc
          simp [claimObjective, hres, claimOnDoc, hp, hop, hnc]
        · intro hc hcl
          simp [claimObjective, hres, claimOnDoc, hp, hop, hc, hcl]
        · intro hc hcl
          refine ⟨?_, find?_setClaimedOnFirst _ _ _ hop⟩
          simp [claimObjective, hres, claimOnDoc, hp, hop, hc, hcl]
  | weekly =>
    refine ⟨?_, ?_⟩
    · intro hnone
      simp only [] at hnone
      simp [claimObjective, hres, claimOnDoc, hnone]
    · intro p hp
      simp only [] at hp
      refine ⟨?_, ?_⟩
      · intro hfind
        simp [claimObjective, hres, claimOnDoc, hp, hfind]
      · intro op hop
        refine ⟨?_, ?_, ?_⟩
        · intro hnc
          simp [claimObjective, hres, claimOnDoc, hp, hop, hnc]
        · intro hc hcl
          simp [claimObjective, hres, claimOnDoc, hp, hop, hc, hcl]
        · intro hc hcl
          refine ⟨?_, find?_setClaimedOnFirst _ _ _ hop⟩
          simp [claimObjective, hres, claimOnDoc, hp, hop, hc, hcl]

/-- C2 (witness): under the default catalog, claiming the completed and
unclaimed objective "daily_success1" succeeds with reward 10 and persists
the document with that state's claimed flag set. -/
theorem claim_case_analysis_witness :
    claimObjective defaultQuests "daily_success1" (some raceDoc) none =
      (ClaimOutcome.success 10,
       some { raceDoc with
         Objectives := setClaimedOnFirst "daily_success1" raceDoc.Objectives },
       none) :=
  ((((claim_case_analysis defaultQuests "daily_success1" (some raceDoc) none
    { id := "daily_success1", messageCount := 0, successMessageCount := 1,
      xpReward := 10, order := 1 }
    QuestType.daily (by decide)).2 raceDoc rfl).2
    { objectiveId := "daily_success1", messageCount := 0,
      successMessageCount := 1, xpReward := 10, order := 1,
      completed := true, claimed := false } (by decide)).2.2 rfl rfl).1

/-- The check's pointwise update never touches the claimed flag. -/
theorem updObjective_claimed (cm cs : Nat) (o : ObjectiveProgress) :
    (updObjective cm cs o).claimed = o.claimed := by
  unfold updObjective
  split <;> rfl

/-- The check's pointwise update never lowers the completed flag. -/
theorem updObjective_keeps_completed (cm cs : Nat) (o : ObjectiveProgress)
    (h : o.completed = true) : (updObjective cm cs o).completed = true := by
  unfold updObjective
  split
  · rfl
  · exact h

/-- The completion check preserves the claimed-implies-completed invariant. -/
theorem invariant_check (p : QuestProgress)
    (h : ∀ o ∈ p.Objectives, o.claimed = true → o.completed = true) :
    ∀ o ∈ (checkObjectiveCompletion p).Objectives,
      o.claimed = true → o.completed = true := by
  intro o ho hcl
  rw [checkObjectiveCompletion_eq] at ho
  simp only [List.mem_map] at ho
  rcases ho with ⟨o0, ho0, rfl⟩
  rw [updObjective_claimed] at hcl
  exact updObjective_keeps_completed _ _ _ (h o0 ho0 hcl)

/-- Event recording preserves the claimed-implies-completed invariant. -/
theorem invariant_applyEvent (isSuccessMessage : Bool) (p : QuestProgress)
    (h : ∀ o ∈ p.Objectives, o.claimed = true → o.completed = true) :
    ∀ o ∈ (applyEvent isSuccessMessage p).Objectives,
      o.claimed = true → o.completed = true := by
  unfold applyEvent
  cases isSuccessMessage with
  | true => exact invariant_check _ (fun o ho hcl => h o ho hcl)
  | false => exact invariant_check _ (fun o ho hcl => h o ho hcl)

/-- Setting the claimed flag on the first matching state preserves the
invariant, provided the state that `find?` located is completed. -/
theorem invariant_setClaimedOnFirst (objectiveId : String)
    (l : List ObjectiveProgress)
    (hinv : ∀ o ∈ l, o.claimed = true → o.completed = true)
    (op : ObjectiveProgress)
    (hfind : l.find? (fun o => o.objectiveId == objectiveId) = some op)
    (hcomp : op.completed = true) :
    ∀ o ∈ setClaimedOnFirst objectiveId l, o.claimed = true → o.completed = true := by
  induction l with
  | nil => simp [setClaimedOnFirst]
  | cons a rest ih =>
    by_cases hm : (a.objectiveId == objectiveId) = true
    · simp only [List.find?, hm] at hfind
      injection hfind with hfind
      subst hfind
      intro o ho hcl
      simp only [setClaimedOnFirst, hm, if_true, List.mem_cons] at ho
      rcases ho with rfl | ho
      · exact hcomp
      · exact hinv o (List.mem_cons_of_mem _ ho) hcl
    · have hm' : (a.objectiveId == objectiveId) = false := by simpa using hm
      simp only [List.find?, hm'] at hfind
      intro o ho hcl
      simp only [setClaimedOnFirst, hm', Bool.false_eq_true, if_false,
        List.mem_cons] at ho
      rcases ho with rfl | ho
      · exact hinv o (List.mem_cons_self _ _) hcl
      · exact ih (fun o2 ho2 => hinv o2 (List.mem_cons_of_mem _ ho2)) hfind o ho hcl

/-- The claim transition preserves the claimed-implies-completed invariant:
it only sets the flag on a state it has just observed to be completed. -/
theorem invariant_claimUpdate (objectiveId : String) (p : QuestProgress)
    (h : ∀ o ∈ p.Objectives, o.claimed = true → o.completed = true) :
    ∀ o ∈ (claimUpdate objectiveId p).Objectives,
      o.claimed = true → o.completed = true := by
  intro o ho hcl
  unfold claimUpdate at ho
  cases hfind : p.Objectives.find? (fun o2 => o2.objectiveId == objectiveId) with
  | none =>
    rw [hfind] at ho
    exact h o ho hcl
  | some op =>
    rw [hfind] at ho
    by_cases hg : (op.completed && !op.claimed) = true
    · simp only [hg, if_true] at ho
      have hcomp : op.completed = true := by
        simp only [Bool.and_eq_true] at hg
        exact hg.1
      exact invariant_setClaimedOnFirst objectiveId p.Objectives h op hfind hcomp
        o ho hcl
    · simp only [hg, Bool.false_eq_true, if_false] at ho
      exact h o ho hcl

/-- Migration preserves the claimed-implies-completed invariant: it keeps
the flags of existing states and appends new states with both flags low. -/
theorem invariant_migrate (cfg : List QuestObjective) (p : QuestProgress)
    (h : ∀ o ∈ p.Objectives, o.claimed = true → o.completed = true) :
    ∀ o ∈ (migrateDoc cfg p).Objectives,
      o.claimed = true → o.completed = true := by
  intro o ho hcl
  simp only [migrateDoc, migrateObjectives, List.map_append, List.mem_append,
    List.mem_map] at ho
  rcases ho with ⟨o0, ho0, rfl⟩ | ⟨o0, ho0, rfl⟩
  · rw [(migrateOne_flags cfg o0).1]
    rw [(migrateOne_flags cfg o0).2.1] at hcl
    exact h o0 ho0 hcl
  · exfalso
    rcases ho0 with ⟨c, _, rfl⟩
    rw [(migrateOne_flags cfg (seedObjective c)).2.1] at hcl
    simp [seedObjective] at hcl

/-- C7: every progress document reachable from a freshly seeded document
through any sequence of record-event, claim, mark-seen and migration
operations satisfies the invariant that every claimed objective state is
completed. -/
theorem reachable_claimed_implies_completed (p : QuestProgress)
    (hp : Reachable p) :
    ∀ o ∈ p.Objectives, o.claimed = true → o.completed = true := by
  induction hp with
  | init cfg =>
    intro o ho hcl
    simp only [freshDoc, List.mem_map] at ho
    rcases ho with ⟨c, _, rfl⟩
    simp [seedObjective] at hcl
  | step _ hstep ih =>
    cases hstep with
    | event isSuccessMessage => exact invariant_applyEvent isSuccessMessage _ ih
    | claim objectiveId => exact invariant_claimUpdate objectiveId _ ih
    | seen => exact fun o ho hcl => ih o ho hcl
    | migrate cfg => exact invariant_migrate cfg _ ih

/-- C7 (witness): the document obtained from a fresh default daily document
by one success event followed by a claim of "daily_success1" contains that
state claimed, and the theorem applied to it shows it completed. -/
theorem reachable_claimed_implies_completed_witness :
    ({ objectiveId := "daily_success1", messageCount := 0,
       successMessageCount := 1, xpReward := 10, order := 1,
       completed := true, claimed := true } : ObjectiveProgress).completed = true :=
  reachable_claimed_implies_completed
    (claimUpdate "daily_success1" (applyEvent true (freshDoc defaultDailyObjectives)))
    (Reachable.step
      (Reachable.step (Reachable.init defaultDailyObjectives)
        (QStep.event true (freshDoc defaultDailyObjectives)))
      (QStep.claim "daily_success1" (applyEvent true (freshDoc defaultDailyObjectives))))
    { objectiveId := "daily_success1", messageCount := 0,
      successMessageCount := 1, xpReward := 10, order := 1,
      completed := true, claimed := true }
    (by decide) (by decide)

/-- The `reduce((sum, o) => sum + o.progress, 0)` fold is the sum of the
progress fields. -/
theorem foldl_add_progress (l : List ViewObjective) (s : Nat) :
    l.foldl (fun sum o => sum + o.progress) s =
      s + (l.map ViewObjective.progress).sum := by
  induction l generalizing s with
  | nil => simp
  | cons o rest ih =>
    simp only [List.foldl_cons, List.map_cons, List.sum_cons]
    rw [ih]
    omega

/-- C10: on the configured-quests path of `getUserProgress`, `msgCount` and
`successMsgCount` of each view are computed by the same expression — the
sum of the per-objective capped progress values — so they are always equal
to each other, and neither equals the document's stored counter whenever
that sum differs from it. -/
theorem view_counts_spec (dailyObjs weeklyObjs : List QuestObjective)
    (dailyDoc weeklyDoc : QuestProgress) :
    ((getUserProgressConfigured dailyObjs weeklyObjs dailyDoc weeklyDoc).daily.msgCount =
      (getUserProgressConfigured dailyObjs weeklyObjs dailyDoc weeklyDoc).daily.successMsgCount) ∧
    ((getUserProgressConfigured dailyObjs weeklyObjs dailyDoc weeklyDoc).weekly.msgCount =
      (getUserProgressConfigured dailyObjs weeklyObjs dailyDoc weeklyDoc).weekly.successMsgCount) ∧
    ((getUserProgressConfigured dailyObjs weeklyObjs dailyDoc weeklyDoc).daily.msgCount =
      (((getUserProgressConfigured dailyObjs weeklyObjs dailyDoc
        weeklyDoc).daily.objectives).map ViewObjective.progress).sum) ∧
    ((((getUserProgressConfigured dailyObjs weeklyObjs dailyDoc
        weeklyDoc).daily.objectives).map ViewObjective.progress).sum ≠
        dailyDoc.currentMessages →
      (getUserProgressConfigured dailyObjs weeklyObjs dailyDoc weeklyDoc).daily.msgCount ≠
        dailyDoc.currentMessages) ∧
    ((((getUserProgressConfigured dailyObjs weeklyObjs dailyDoc
        weeklyDoc).daily.objectives).map ViewObjective.progress).sum ≠
        dailyDoc.currentSuccessMessages →
      (getUserProgressConfigured dailyObjs weeklyObjs dailyDoc
        weeklyDoc).daily.successMsgCount ≠ dailyDoc.currentSuccessMessages) := by
  have hsum : (getUserProgressConfigured dailyObjs weeklyObjs dailyDoc
      weeklyDoc).daily.msgCount =
      (((getUserProgressConfigured dailyObjs weeklyObjs dailyDoc
        weeklyDoc).daily.objectives).map ViewObjective.progress).sum := by
    simp only [getUserProgressConfigured, buildQuestView]
    rw [foldl_add_progress]
    omega
  refine ⟨rfl, rfl, hsum, ?_, ?_⟩
  · intro hne
    rw [hsum]
    exact hne
  · intro hne
    have : (getUserProgressConfigured dailyObjs weeklyObjs dailyDoc
        weeklyDoc).daily.successMsgCount =
        (((getUserProgressConfigured dailyObjs weeklyObjs dailyDoc
          weeklyDoc).daily.objectives).map ViewObjective.progress).sum := hsum
    rw [this]
    exact hne

/-- C10 (witness): with the default daily catalog and a document whose
counters are 12 and 0, the capped sum is 10 (0 from the success objective
with target 1, 10 from the message objective capped at its target), so
`msgCount` differs from the stored `currentMessages` 12 and
`successMsgCount` differs from the stored `currentSuccessMessages` 0. -/
theorem view_counts_spec_witness :
    (getUserProgressConfigured defaultDailyObjectives defaultWeeklyObjectives
      { currentMessages := 12, currentSuccessMessages := 0, Objectives := [],
        Completed := false, QuestSeen := true, NotificationCount := 0 }
      { currentMessages := 12, currentSuccessMessages := 0, Objectives := [],
        Completed := false, QuestSeen := true,
        NotificationCount := 0 }).daily.msgCount ≠ 12 ∧
    (getUserProgressConfigured defaultDailyObjectives defaultWeeklyObjectives
      { currentMessages := 12, currentSuccessMessages := 0, Objectives := [],
        Completed := false, QuestSeen := true, NotificationCount := 0 }
      { currentMessages := 12, currentSuccessMessages := 0, Objectives := [],
        Completed := false, QuestSeen := true,
        NotificationCount := 0 }).daily.successMsgCount ≠ 0 :=
  ⟨(view_counts_spec defaultDailyObjectives defaultWeeklyObjectives
      { currentMessages := 12, currentSuccessMessages := 0, Objectives := [],
        Completed := false, QuestSeen := true, NotificationCount := 0 }
      { currentMessages := 12, currentSuccessMessages := 0, Objectives := [],
        Completed := false, QuestSeen := true,
        NotificationCount := 0 }).2.2.2.1 (by decide),
   (view_counts_spec defaultDailyObjectives defaultWeeklyObjectives
      { currentMessages := 12, currentSuccessMessages := 0, Objectives := [],
        Completed := false, QuestSeen := true, NotificationCount := 0 }
      { currentMessages := 12, currentSuccessMessages := 0, Objectives := [],
        Completed := false, QuestSeen := true,
        NotificationCount := 0 }).2.2.2.2 (by decide)⟩

end Gamify

